import Mathlib

/-!
Shallow embedding of the CleverMusic node-graph editor core
(`src/App.tsx`, `src/types.ts`, `src/components/Button.tsx`).

Numbers that are JavaScript floats in the source (positions, durations)
are modelled as rationals; all values involved in the verified claims are
small and exactly representable.  Fresh identifiers produced by
`crypto.randomUUID()` and timestamps produced by `Date.now()` are modelled
as explicit parameters (an id supply `Nat → String` / a `now : Nat`
argument), and the asynchronous per-clip generation service is modelled as
an oracle `Nat → Except String String` indexed by scene position.
-/

namespace CleverMusic

/-- `src/types.ts`: the media classification of a `CanvasItem`. -/
inductive MediaKind
  | image
  | video
  | audio
deriving DecidableEq, Repr

/-- `src/types.ts`: `GenerationMode`. -/
inductive GenerationMode
  | grid2x2
  | grid3x3
  | grid4x4
deriving DecidableEq, Repr

/-- `src/types.ts`: `AspectRatio`. -/
inductive AspectRatio
  | square
  | standard
  | portrait
  | wide
  | mobile
  | cinema
deriving DecidableEq, Repr

/-- `src/types.ts`: the discriminator of `StoryboardGroup.type`. -/
inductive StoryboardType
  | generation
  | assets
  | agent
  | music
  | music_analysis
  | text_result
  | text
  | mv_attribute_settings
  | mv_storyboard
  | timeline
  | video
deriving DecidableEq, Repr

/-- `src/types.ts`: `TimelineClip.status`. -/
inductive ClipStatus
  | pending
  | generating
  | done
  | error
deriving DecidableEq, Repr

/-- `src/types.ts`: `CanvasItem`. -/
structure CanvasItem where
  id : String
  url : String
  type : MediaKind
  prompt : Option String := none
  aspectRatio : Option String := none
  timestamp : Nat := 0
  fullGridUrl : Option String := none
  duration : Option ℚ := none
  fileName : Option String := none
deriving DecidableEq, Repr

/-- `src/types.ts`: `MVScene`. -/
structure MVScene where
  timeCode : String
  rhythm : String
  visualDescription : String
  midjourneyPrompt : String
  cameraMovement : String
  imageUrl : Option String := none
deriving DecidableEq, Repr

/-- `src/types.ts`: `TimelineClip`. -/
structure TimelineClip where
  id : String
  sceneId : String
  videoUrl : String
  thumbUrl : String
  duration : ℚ
  prompt : String
  status : ClipStatus
deriving DecidableEq, Repr

/-- `src/types.ts`: `NodeConfig`.  A JavaScript object is a partial record,
so every field is optional here; the source spreads possibly-`undefined`
configs (`{ ...group.config, ... }`), which is modelled by defaulting a
missing config to the all-`none` record. -/
structure NodeConfig where
  prompt : Option String := none
  mode : Option GenerationMode := none
  aspectRatio : Option AspectRatio := none
  recommendations : Option (List String) := none
  isAnalyzing : Option Bool := none
  cameraMove : Option String := none
  lightingStyle : Option String := none
  textResult : Option String := none
  customSystemPrompt : Option String := none
  mvStyleImageUrl : Option String := none
  mvProtagonistImageUrl : Option String := none
  mvScenes : Option (List MVScene) := none
  timelineAudioUrl : Option String := none
  timelineClips : Option (List TimelineClip) := none
deriving DecidableEq, Repr

/-- The all-`none` `NodeConfig`, i.e. the result of spreading an
`undefined` config object. -/
def emptyNodeConfig : NodeConfig := {}

/-- `src/types.ts`: `StoryboardGroup`, the graph node.  `connections` is
the outbound adjacency list; `inputs` the (optional) inbound list. -/
structure StoryboardGroup where
  id : String
  type : StoryboardType
  title : String
  x : ℚ
  y : ℚ
  width : Option ℚ := none
  height : Option ℚ := none
  items : List CanvasItem := []
  timestamp : Nat := 0
  connections : List String := []
  inputs : Option (List String) := none
  config : Option NodeConfig := none
  displayMode : Option GenerationMode := none
deriving DecidableEq, Repr

/-- The slice of `App`'s React state that the graph-store operations read
and write (`src/App.tsx` lines 82-97). -/
structure AppState where
  storyboards : List StoryboardGroup
  history : List (List StoryboardGroup)
  clipboard : Option StoryboardGroup := none
  selectedNodeId : Option String := none
  editorNodeId : Option String := none
deriving DecidableEq, Repr

/-- `storyboards.find(n => n.id === nodeId)`. -/
def findNode (gs : List StoryboardGroup) (nodeId : String) : Option StoryboardGroup :=
  gs.find? (fun n => n.id == nodeId)

/-- `src/App.tsx` `saveHistory` (lines 101-107): push the current node
collection onto the undo stack and drop the oldest entry when the stack
exceeds 20 entries. -/
def saveHistory (s : AppState) : AppState :=
  let newHistory := s.history ++ [s.storyboards]
  { s with history := if newHistory.length > 20 then newHistory.drop 1 else newHistory }

/-- `src/App.tsx` `handleUndo` (lines 109-116): if the stack is empty do
nothing, otherwise restore the most recent snapshot and pop it. -/
def handleUndo (s : AppState) : AppState :=
  match s.history.getLast? with
  | none => s
  | some previousState =>
      { s with storyboards := previousState, history := s.history.dropLast }

/-- `src/App.tsx` `handleDeleteNode` (lines 154-166): snapshot, drop the
node, prune its id from every remaining node's `connections` and `inputs`,
and clear selection / editor focus if they referenced the node. -/
def handleDeleteNode (nodeId : String) (s : AppState) : AppState :=
  let s1 := saveHistory s
  { s1 with
    storyboards :=
      (s1.storyboards.filter (fun g => g.id != nodeId)).map (fun g =>
        { g with
          connections := g.connections.filter (fun c => c != nodeId),
          inputs := some ((g.inputs.getD []).filter (fun i => i != nodeId)) }),
    selectedNodeId := if s1.selectedNodeId = some nodeId then none else s1.selectedNodeId,
    editorNodeId := if s1.editorNodeId = some nodeId then none else s1.editorNodeId }

/-- `src/App.tsx` `handlePaste` (lines 125-152): if the clipboard is
non-empty, snapshot and append a copy of the clipboard node with a fresh
id, fresh item ids, title suffixed `" (Copy)"`, position offset
`(+40,+40)` from the clipboard node, and cleared `connections`/`inputs`;
the new node becomes selected.  `now` models `Date.now()`, `newId` the
`crypto.randomUUID()` for the node and `freshItemId i` the one for the
`i`-th item.  `pastedNode` is the node built from the clipboard contents
(`src/App.tsx` lines 131-147). -/
def pastedNode (now : Nat) (newId : String) (freshItemId : Nat → String)
    (clip : StoryboardGroup) : StoryboardGroup :=
  { clip with
    id := newId,
    title := clip.title ++ " (Copy)",
    x := clip.x + 40,
    y := clip.y + 40,
    items := clip.items.mapIdx (fun i item =>
      { item with id := freshItemId i, timestamp := now }),
    connections := [],
    inputs := some [],
    timestamp := now }

def handlePaste (now : Nat) (newId : String) (freshItemId : Nat → String)
    (s : AppState) : AppState :=
  match s.clipboard with
  | none => s
  | some clip =>
      let s1 := saveHistory s
      { s1 with
        storyboards := s1.storyboards ++ [pastedNode now newId freshItemId clip],
        selectedNodeId := some newId }

/-- When the connect source node is a `music` bin with at least one item,
the URL of its first item (`sourceNode.items[0].url`), otherwise `none`;
this packages the guard
`sourceNode?.type === 'music' && sourceNode.items.length > 0`. -/
def musicAudioUrl : Option StoryboardGroup → Option String
  | some sn =>
      if sn.type == StoryboardType.music then
        match sn.items with
        | it :: _ => some it.url
        | [] => none
      else none
  | none => none

/-- The source-node half of the `handleConnect` map callback
(`src/App.tsx` lines 580-584): append the target id to the source node's
`connections` when not already present. -/
def connectSourceUpdate (sourceNodeId targetNodeId : String)
    (group : StoryboardGroup) : StoryboardGroup :=
  if group.id == sourceNodeId then
    if !(group.connections.contains targetNodeId) then
      { group with connections := group.connections ++ [targetNodeId] }
    else group
  else group

/-- The full `handleConnect` map callback (`src/App.tsx` lines 565-585).
On the target node: if the target is a `timeline` node and the source a
`music` bin with items, append the source id to `inputs` and seed
`config.timelineAudioUrl` from the source's first item; otherwise append
the source id to `inputs` when absent.  Control then falls through to the
source-node half, exactly as in the source. -/
def connectUpdate (sourceNodeId targetNodeId : String)
    (sourceNode : Option StoryboardGroup) (group : StoryboardGroup) : StoryboardGroup :=
  if group.id == targetNodeId then
    let inputs := group.inputs.getD []
    match group.type == StoryboardType.timeline, musicAudioUrl sourceNode with
    | true, some url =>
        { group with
          inputs := some (inputs ++ [sourceNodeId]),
          config := some { group.config.getD emptyNodeConfig with
                            timelineAudioUrl := some url } }
    | _, _ =>
        if !(inputs.contains sourceNodeId) then
          { group with inputs := some (inputs ++ [sourceNodeId]) }
        else connectSourceUpdate sourceNodeId targetNodeId group
  else connectSourceUpdate sourceNodeId targetNodeId group

/-- `src/App.tsx` `handleConnect` (lines 556-586): reject self-connection,
reject when the source already lists the target in `connections`
(`sourceNode?.connections.includes(targetNodeId)`), otherwise snapshot and
apply `connectUpdate` to every node. -/
def handleConnect (sourceNodeId targetNodeId : String) (s : AppState) : AppState :=
  if sourceNodeId == targetNodeId then s
  else if ((findNode s.storyboards sourceNodeId).map
      (fun sn => sn.connections.contains targetNodeId)).getD false then s
  else
    let s1 := saveHistory s
    { s1 with storyboards :=
        s1.storyboards.map (connectUpdate sourceNodeId targetNodeId
          (findNode s.storyboards sourceNodeId)) }

/-- The `handleDisconnect` map callback (`src/App.tsx` lines 591-593):
remove the source id from the target's `inputs` and the target id from
the source's `connections`. -/
def disconnectUpdate (sourceNodeId targetNodeId : String)
    (group : StoryboardGroup) : StoryboardGroup :=
  if group.id == targetNodeId then
    { group with inputs := some ((group.inputs.getD []).filter (fun i => i != sourceNodeId)) }
  else if group.id == sourceNodeId then
    { group with connections := group.connections.filter (fun c => c != targetNodeId) }
  else group

/-- `src/App.tsx` `handleDisconnect` (lines 588-595): snapshot, then apply
`disconnectUpdate` to every node. -/
def handleDisconnect (sourceNodeId targetNodeId : String) (s : AppState) : AppState :=
  let s1 := saveHistory s
  { s1 with storyboards := s1.storyboards.map (disconnectUpdate sourceNodeId targetNodeId) }

/-- A history-guarded mutating operation: `saveHistory()` followed by a
functional update of the node collection.  Every history-guarded handler
in `src/App.tsx` (`handlePaste`, `handleDeleteNode`, `handleRenameNode`,
`handleConnect` past its guards, ...) has this shape. -/
def doAction (f : List StoryboardGroup → List StoryboardGroup) (s : AppState) : AppState :=
  let s1 := saveHistory s
  { s1 with storyboards := f s1.storyboards }

/-- Run a sequence of history-guarded actions, oldest first. -/
def applyActions (fs : List (List StoryboardGroup → List StoryboardGroup))
    (s : AppState) : AppState :=
  fs.foldl (fun st f => doAction f st) s

/-! ### Timeline compositor (`src/components/Button.tsx`, `TimelinePlayer`) -/

/-- `clips.reduce((acc, clip) => acc + clip.duration, 0)`
(`src/components/Button.tsx` line 347). -/
def sumDurations (clips : List TimelineClip) : ℚ :=
  clips.foldl (fun acc clip => acc + clip.duration) 0

/-- `Math.max(clipsDur, audioDuration, 60)`
(`src/components/Button.tsx` line 348); `Math.max` of three arguments is
the left-nested binary max. -/
def totalDuration (clips : List TimelineClip) (audioDuration : ℚ) : ℚ :=
  max (max (sumDurations clips) audioDuration) 60

/-- The start offset of the clip at index `i`:
`for (let j = 0; j < i; j++) startTime += clips[j].duration`
(`src/components/Button.tsx` lines 779-780). -/
def clipStart (clips : List TimelineClip) (i : Nat) : ℚ :=
  sumDurations (clips.take i)

/-- The resize handler (`src/components/Button.tsx` lines 370-377):
`deltaTime = deltaPixels / pixelsPerSecond`, and the clip whose id is
being resized gets duration `max(0.5, startDuration + deltaTime)`. -/
def resizeClips (clips : List TimelineClip) (resizingId : String)
    (startDuration deltaPixels pixelsPerSecond : ℚ) : List TimelineClip :=
  let deltaTime := deltaPixels / pixelsPerSecond
  let newDuration := max (1/2 : ℚ) (startDuration + deltaTime)
  clips.map (fun c => if c.id == resizingId then { c with duration := newDuration } else c)

/-! ### Batch timeline generation (`src/App.tsx`, `handleGenerateTimeline`) -/

/-- Per-clip success update (`src/App.tsx` lines 894-899): the clip with
the generated id gets its `videoUrl` and becomes `done`. -/
def clipDone (clipId videoUrl : String) (c : TimelineClip) : TimelineClip :=
  if c.id == clipId then { c with videoUrl := videoUrl, status := ClipStatus.done } else c

/-- Per-clip failure update (`src/App.tsx` lines 906-913): the clip with
the failed id becomes `error` and its label (`prompt`) carries
`"Error: " ++ (message || "Failed")`. -/
def clipError (clipId message : String) (c : TimelineClip) : TimelineClip :=
  if c.id == clipId then
    { c with
      status := ClipStatus.error,
      prompt := "Error: " ++ (if message == "" then "Failed" else message) }
  else c

/-- `setStoryboards(prev => prev.map(g => g.id === agentId ? {...g, config:
{...g.config!, timelineClips: g.config?.timelineClips?.map(f)}} : g))`, the
state update pattern shared by both branches of the generation loop. -/
def updateAgentClips (agentId : String) (f : TimelineClip → TimelineClip)
    (gs : List StoryboardGroup) : List StoryboardGroup :=
  gs.map (fun g =>
    if g.id == agentId then
      { g with config := some { g.config.getD emptyNodeConfig with
          timelineClips := (g.config.bind (fun c => c.timelineClips)).map (fun cs => cs.map f) } }
    else g)

/-- One entry of `clipsToGenerate` (`src/App.tsx` line 857). -/
structure ClipGenTask where
  index : Nat
  scene : MVScene
  clipId : String
deriving Repr

/-- The placeholder clip appended for scene `i` (`src/App.tsx` lines
866-875): fresh id, `scene-{i}` scene reference, empty video URL, the
scene's image as thumbnail, duration 4, the scene's visual description as
label, status `generating`. -/
def placeholderClip (fresh : Nat → String) (i : Nat) (scene : MVScene)
    (img : String) : TimelineClip :=
  { id := fresh i, sceneId := "scene-" ++ toString i, videoUrl := "",
    thumbUrl := img, duration := 4, prompt := scene.visualDescription,
    status := ClipStatus.generating }

/-- The placeholder-building loop (`src/App.tsx` lines 859-878): walk the
scenes in order; skip a scene whose `scene-{i}` id already has a `done`
clip or which has no image; otherwise append a `generating` placeholder
clip and record a generation task. -/
def buildPlaceholders (fresh : Nat → String) :
    List MVScene → Nat → List TimelineClip → List ClipGenTask →
    List TimelineClip × List ClipGenTask
  | [], _, clips, tasks => (clips, tasks)
  | scene :: rest, i, clips, tasks =>
      if clips.any (fun c =>
          c.sceneId == "scene-" ++ toString i && c.status == ClipStatus.done) then
        buildPlaceholders fresh rest (i + 1) clips tasks
      else
        match scene.imageUrl with
        | none => buildPlaceholders fresh rest (i + 1) clips tasks
        | some img =>
            buildPlaceholders fresh rest (i + 1)
              (clips ++ [placeholderClip fresh i scene img])
              (tasks ++ [⟨i, scene, fresh i⟩])

/-- The sequential generation loop (`src/App.tsx` lines 884-917): each
task is awaited in turn; a success marks its clip `done` with the returned
video URL, a failure is caught inside the loop body, marks only its clip
`error`, and the loop continues with the next task.  `gen` is the
generation-service oracle indexed by scene position. -/
def runGeneration (gen : Nat → Except String String) (agentId : String)
    (tasks : List ClipGenTask) (gs : List StoryboardGroup) : List StoryboardGroup :=
  tasks.foldl (fun acc task =>
    match gen task.index with
    | Except.ok videoUrl => updateAgentClips agentId (clipDone task.clipId videoUrl) acc
    | Except.error e => updateAgentClips agentId (clipError task.clipId e) acc) gs

/-- `handleGenerateTimeline` (`src/App.tsx` lines 855-917), from the point
where the scene list has been resolved: read the agent's current clips,
build placeholders, publish them, then run the generation loop. -/
def generateTimelineClips (fresh : Nat → String) (gen : Nat → Except String String)
    (agentId : String) (mvScenes : List MVScene)
    (gs : List StoryboardGroup) : List StoryboardGroup :=
  match findNode gs agentId with
  | none => gs
  | some agent =>
      runGeneration gen agentId
        (buildPlaceholders fresh mvScenes 0
          ((agent.config.bind (fun c => c.timelineClips)).getD []) []).2
        (gs.map (fun g =>
          if g.id == agentId then
            { g with config := some { g.config.getD emptyNodeConfig with
                timelineClips := some (buildPlaceholders fresh mvScenes 0
                  ((agent.config.bind (fun c => c.timelineClips)).getD []) []).1 } }
          else g))

/-! ### Concrete fixtures used by witnesses and counterexamples -/

/-- A concrete audio item in a music bin. -/
def demoItem : CanvasItem :=
  { id := "i1", url := "blob:song", type := MediaKind.audio }

/-- A concrete `music` node with one audio item. -/
def demoMusic : StoryboardGroup :=
  { id := "A", type := StoryboardType.music, title := "Music", x := 0, y := 0,
    items := [demoItem] }

/-- A concrete `timeline` node. -/
def demoTimeline : StoryboardGroup :=
  { id := "B", type := StoryboardType.timeline, title := "Timeline", x := 10, y := 10,
    inputs := some [] }

/-- A concrete two-node state. -/
def demoState : AppState :=
  { storyboards := [demoMusic, demoTimeline], history := [] }

/-- A concrete state with an empty history stack. -/
def demoEmptyState : AppState :=
  { storyboards := [demoMusic], history := [] }

/-- A concrete state whose history stack is full (20 entries). -/
def demoState20 : AppState :=
  { storyboards := [demoMusic], history := List.replicate 20 [] }

/-- Concrete clipboard node at position `(0, 0)` used to refute the
claimed `(+80,+80)` offset of a second paste. -/
def pasteDemoClip : StoryboardGroup :=
  { id := "orig", type := StoryboardType.assets, title := "Node", x := 0, y := 0 }

/-- Concrete state holding `pasteDemoClip` in the clipboard. -/
def pasteDemoState : AppState :=
  { storyboards := [], history := [], clipboard := some pasteDemoClip }

/-- A concrete clip of duration 4. -/
def demoClip4 : TimelineClip :=
  { id := "k0", sceneId := "s0", videoUrl := "", thumbUrl := "", duration := 4,
    prompt := "", status := ClipStatus.done }

/-- Three concrete clips of duration 4 with distinct ids. -/
def demoClips : List TimelineClip :=
  [demoClip4, { demoClip4 with id := "k1" }, { demoClip4 with id := "k2" }]

/-- A concrete timeline agent node with an empty clip list. -/
def demoAgent : StoryboardGroup :=
  { id := "T", type := StoryboardType.timeline, title := "Timeline Edit", x := 0, y := 0,
    config := some { timelineClips := some [] } }

/-- A concrete scene with a generated image. -/
def demoScene (_n : Nat) : MVScene :=
  { timeCode := "0:00", rhythm := "slow", visualDescription := "vd",
    midjourneyPrompt := "mp", cameraMovement := "static",
    imageUrl := some "img" }

/-- A concrete fresh-id supply with three distinct ids. -/
def demoFresh : Nat → String
  | 0 => "c0"
  | 1 => "c1"
  | _ => "c2" 

/-- A concrete generation oracle whose second call fails. -/
def demoGen : Nat → Except String String :=
  fun n => if n = 1 then Except.error "boom" else Except.ok "vid"

/-! ### General helper lemmas -/

/-- Two `AppState`s with equal fields are equal. -/
theorem AppState.extd {a b : AppState} (h1 : a.storyboards = b.storyboards)
    (h2 : a.history = b.history) (h3 : a.clipboard = b.clipboard)
    (h4 : a.selectedNodeId = b.selectedNodeId) (h5 : a.editorNodeId = b.editorNodeId) :
    a = b := by
  cases a
  cases b
  simp_all

/-- `findNode` commutes with mapping an id-preserving update over the
node collection. -/
theorem findNode_map (gs : List StoryboardGroup) (nid : String)
    (f : StoryboardGroup → StoryboardGroup) (hf : ∀ g, (f g).id = g.id) :
    findNode (gs.map f) nid = (findNode gs nid).map f := by
  unfold findNode
  rw [List.find?_map]
  have hp : ((fun n : StoryboardGroup => n.id == nid) ∘ f)
      = (fun n : StoryboardGroup => n.id == nid) := by
    funext g
    simp [Function.comp, hf]
  rw [hp]

/-- A node returned by `findNode` has the id that was looked up. -/
theorem findNode_id {gs : List StoryboardGroup} {nid : String} {g : StoryboardGroup}
    (h : findNode gs nid = some g) : g.id = nid := by
  unfold findNode at h
  have := List.find?_some h
  simpa using this

/-- A node returned by `findNode` is a member of the collection. -/
theorem findNode_mem {gs : List StoryboardGroup} {nid : String} {g : StoryboardGroup}
    (h : findNode gs nid = some g) : g ∈ gs := by
  unfold findNode at h
  exact List.mem_of_find?_eq_some h

/-- Filtering out an id that is not present leaves a list unchanged. -/
theorem filter_bne_eq_self {l : List String} {a : String} (h : a ∉ l) :
    l.filter (fun x => x != a) = l := by
  apply List.filter_eq_self.mpr
  intro x hx
  simp only [bne_iff_ne, ne_eq, decide_eq_true_eq]
  rintro rfl
  exact h hx

/-- Appending an id and then filtering it out restores the original list,
when the id was not present before. -/
theorem filter_bne_concat {l : List String} {a : String} (h : a ∉ l) :
    (l ++ [a]).filter (fun x => x != a) = l := by
  rw [List.filter_append, filter_bne_eq_self h]
  simp

/-- Folding durations starting from `x` adds `x` to the fold from `0`. -/
theorem foldl_duration_shift (l : List TimelineClip) (x : ℚ) :
    l.foldl (fun acc clip => acc + clip.duration) x = x + sumDurations l := by
  induction l generalizing x with
  | nil => simp [sumDurations]
  | cons c tl ih =>
      simp only [List.foldl_cons, sumDurations] at *
      rw [ih, ih (0 + c.duration)]
      ring

/-- `sumDurations` on a cons cell. -/
theorem sumDurations_cons (c : TimelineClip) (l : List TimelineClip) :
    sumDurations (c :: l) = c.duration + sumDurations l := by
  have h : sumDurations (c :: l)
      = l.foldl (fun acc clip => acc + clip.duration) (0 + c.duration) := rfl
  rw [h, foldl_duration_shift]
  ring

/-- `sumDurations` distributes over append. -/
theorem sumDurations_append (l1 l2 : List TimelineClip) :
    sumDurations (l1 ++ l2) = sumDurations l1 + sumDurations l2 := by
  have h : sumDurations (l1 ++ l2)
      = (l1 ++ l2).foldl (fun acc clip => acc + clip.duration) 0 := rfl
  rw [h, List.foldl_append, foldl_duration_shift]
  rfl

/-! ### Per-node update lemmas -/

/-- `connectSourceUpdate` never changes a node's id. -/
theorem connectSourceUpdate_id (a b : String) (g : StoryboardGroup) :
    (connectSourceUpdate a b g).id = g.id := by
  unfold connectSourceUpdate
  repeat' split
  all_goals rfl

/-- `connectUpdate` never changes a node's id. -/
theorem connectUpdate_id (a b : String) (sn : Option StoryboardGroup) (g : StoryboardGroup) :
    (connectUpdate a b sn g).id = g.id := by
  unfold connectUpdate
  split
  · split
    · rfl
    · dsimp only
      split
      · rfl
      · exact connectSourceUpdate_id a b g
  · exact connectSourceUpdate_id a b g

/-- `disconnectUpdate` never changes a node's id. -/
theorem disconnectUpdate_id (a b : String) (g : StoryboardGroup) :
    (disconnectUpdate a b g).id = g.id := by
  unfold disconnectUpdate
  repeat' split
  all_goals rfl

/-- `connectSourceUpdate` on a node that is not the source. -/
theorem connectSourceUpdate_other {a b : String} {g : StoryboardGroup} (h : g.id ≠ a) :
    connectSourceUpdate a b g = g := by
  unfold connectSourceUpdate
  rw [if_neg (by simpa using h)]

/-- `connectSourceUpdate` on the source node when the edge is absent. -/
theorem connectSourceUpdate_source {a b : String} {g : StoryboardGroup} (hid : g.id = a)
    (h : b ∉ g.connections) :
    connectSourceUpdate a b g = { g with connections := g.connections ++ [b] } := by
  unfold connectSourceUpdate
  rw [if_pos (by simpa using hid), if_pos (by simpa using h)]

/-- `connectUpdate` on a node that is neither source nor target. -/
theorem connectUpdate_other {a b : String} {sn : Option StoryboardGroup}
    {g : StoryboardGroup} (ht : g.id ≠ b) (hs : g.id ≠ a) :
    connectUpdate a b sn g = g := by
  unfold connectUpdate
  rw [if_neg (by simpa using ht)]
  exact connectSourceUpdate_other hs

/-- `connectUpdate` on the source node (distinct from the target) when the
edge is absent. -/
theorem connectUpdate_source {a b : String} {sn : Option StoryboardGroup}
    {g : StoryboardGroup} (hid : g.id = a) (hne : a ≠ b) (h : b ∉ g.connections) :
    connectUpdate a b sn g = { g with connections := g.connections ++ [b] } := by
  unfold connectUpdate
  rw [if_neg (by simp [hid]; exact hne)]
  exact connectSourceUpdate_source hid h

/-- `connectUpdate` on the target node in the music-to-timeline special
case: the source id is appended to `inputs` and the timeline audio URL is
seeded from the source's first item, in one update. -/
theorem connectUpdate_target_special {a b : String} {sn : Option StoryboardGroup}
    {g : StoryboardGroup} {url : String} (hid : g.id = b)
    (ht : g.type = StoryboardType.timeline) (hm : musicAudioUrl sn = some url) :
    connectUpdate a b sn g =
      { g with
        inputs := some (g.inputs.getD [] ++ [a]),
        config := some { g.config.getD emptyNodeConfig with
          timelineAudioUrl := some url } } := by
  unfold connectUpdate
  rw [if_pos (by simpa using hid), hm,
    show (g.type == StoryboardType.timeline) = true by simpa using ht]

/-- On the target node, `connectUpdate` appends the source id to `inputs`
(when absent) and leaves `connections` and `id` alone, in every branch. -/
theorem connectUpdate_target_proj {a b : String} {sn : Option StoryboardGroup}
    {g : StoryboardGroup} (hid : g.id = b) (hin : a ∉ g.inputs.getD []) :
    (connectUpdate a b sn g).inputs = some (g.inputs.getD [] ++ [a])
    ∧ (connectUpdate a b sn g).connections = g.connections := by
  unfold connectUpdate
  rw [if_pos (by simpa using hid)]
  rcases hmm : musicAudioUrl sn with _ | url
  · cases htl : (g.type == StoryboardType.timeline) <;>
    · dsimp only
      rw [if_pos (by simpa using hin)]
      exact ⟨rfl, rfl⟩
  · cases htl : (g.type == StoryboardType.timeline)
    · dsimp only
      rw [if_pos (by simpa using hin)]
      exact ⟨rfl, rfl⟩
    · exact ⟨rfl, rfl⟩

/-- On the target node with the source id already present in `inputs` (and
no special case firing), `connectUpdate` falls through to the source-side
update, exactly like the source's early `return` -less control flow. -/
theorem connectUpdate_target_already {a b : String} {sn : Option StoryboardGroup}
    {g : StoryboardGroup} (hid : g.id = b) (hmm : musicAudioUrl sn = none)
    (hin : a ∈ g.inputs.getD []) :
    connectUpdate a b sn g = connectSourceUpdate a b g := by
  unfold connectUpdate
  rw [if_pos (by simpa using hid), hmm]
  cases htl : (g.type == StoryboardType.timeline) <;>
  · dsimp only
    rw [if_neg (by simpa using hin)]

/-- `disconnectUpdate` on the source node (distinct from the target). -/
theorem disconnectUpdate_source {a b : String} {g : StoryboardGroup}
    (hid : g.id = a) (hne : a ≠ b) :
    disconnectUpdate a b g
      = { g with connections := g.connections.filter (fun c => c != b) } := by
  unfold disconnectUpdate
  rw [if_neg (by simp [hid]; exact hne), if_pos (by simpa using hid)]

/-- `disconnectUpdate` on the target node. -/
theorem disconnectUpdate_target {a b : String} {g : StoryboardGroup} (hid : g.id = b) :
    disconnectUpdate a b g
      = { g with inputs := some ((g.inputs.getD []).filter (fun i => i != a)) } := by
  unfold disconnectUpdate
  rw [if_pos (by simpa using hid)]

/-! ### `handleConnect` control-flow lemmas -/

/-- When the source node already lists the target, `handleConnect` is a
complete no-op on the state. -/
theorem handleConnect_noop_of_connected {a b : String} {s : AppState}
    {sn : StoryboardGroup} (hfa : findNode s.storyboards a = some sn)
    (hb : b ∈ sn.connections) :
    handleConnect a b s = s := by
  unfold handleConnect
  by_cases hab : (a == b) = true
  · rw [if_pos hab]
  · rw [if_neg hab, hfa, if_pos (by simpa using hb)]

/-- When the guards pass, `handleConnect` maps `connectUpdate` over the
node collection. -/
theorem handleConnect_commit {a b : String} {s : AppState} (hne : a ≠ b)
    (hguard : ((findNode s.storyboards a).map
        (fun sn => sn.connections.contains b)).getD false = false) :
    (handleConnect a b s).storyboards
      = s.storyboards.map (connectUpdate a b (findNode s.storyboards a)) := by
  unfold handleConnect
  rw [if_neg (by simpa using hne), if_neg (by rw [hguard]; simp)]
  rfl

/-- `handleDisconnect` maps `disconnectUpdate` over the node collection. -/
theorem handleDisconnect_storyboards (a b : String) (s : AppState) :
    (handleDisconnect a b s).storyboards
      = s.storyboards.map (disconnectUpdate a b) := rfl

/-- An element never survives a filter that excludes it. -/
theorem not_mem_filter_bne (l : List String) (x : String) :
    x ∉ l.filter (fun y => y != x) := by
  intro hx
  have := List.of_mem_filter hx
  simp at this

/-- `connectUpdate` on the target node when the special case cannot fire
and the source id is absent from `inputs`. -/
theorem connectUpdate_target_append {a b : String} {sn : Option StoryboardGroup}
    {g : StoryboardGroup} (hid : g.id = b) (hmm : musicAudioUrl sn = none)
    (hin : a ∉ g.inputs.getD []) :
    connectUpdate a b sn g = { g with inputs := some (g.inputs.getD [] ++ [a]) } := by
  unfold connectUpdate
  rw [if_pos (by simpa using hid), hmm]
  cases htl : (g.type == StoryboardType.timeline) <;>
  · dsimp only
    rw [if_pos (by simpa using hin)]

/-- With no source node in the graph, applying `connectUpdate` twice to a
node whose id differs from the source id changes nothing the second
time. -/
theorem connectUpdate_none_idem {a b : String} {g : StoryboardGroup}
    (hga : g.id ≠ a) :
    connectUpdate a b none (connectUpdate a b none g) = connectUpdate a b none g := by
  by_cases hgb : g.id = b
  · by_cases hin : a ∈ g.inputs.getD []
    · rw [@connectUpdate_target_already a b none g hgb rfl hin,
        connectSourceUpdate_other hga,
        @connectUpdate_target_already a b none g hgb rfl hin,
        connectSourceUpdate_other hga]
    · rw [@connectUpdate_target_append a b none g hgb rfl hin]
      rw [@connectUpdate_target_already a b none
        { g with inputs := some (g.inputs.getD [] ++ [a]) } hgb rfl (by simp)]
      exact connectSourceUpdate_other hga
  · rw [connectUpdate_other hgb hga, connectUpdate_other hgb hga]

/-- The node collection produced by `handleDeleteNode`. -/
theorem handleDeleteNode_storyboards (x : String) (s : AppState) :
    (handleDeleteNode x s).storyboards
      = (s.storyboards.filter (fun g => g.id != x)).map (fun g =>
          { g with
            connections := g.connections.filter (fun c => c != x),
            inputs := some ((g.inputs.getD []).filter (fun i => i != x)) }) := rfl

/-! ### History-stack helper lemmas -/

/-- `saveHistory` leaves the node collection alone. -/
theorem saveHistory_storyboards (s : AppState) :
    (saveHistory s).storyboards = s.storyboards := rfl

/-- The history of a history-guarded action is the history of its
snapshot. -/
theorem doAction_history (f : List StoryboardGroup → List StoryboardGroup) (s : AppState) :
    (doAction f s).history = (saveHistory s).history := rfl

/-- The node collection after a history-guarded action. -/
theorem doAction_storyboards (f : List StoryboardGroup → List StoryboardGroup) (s : AppState) :
    (doAction f s).storyboards = f s.storyboards := rfl

/-- Below the cap, `saveHistory` just appends the current collection. -/
theorem saveHistory_history_of_le {s : AppState} (h : s.history.length ≤ 19) :
    (saveHistory s).history = s.history ++ [s.storyboards] := by
  have hc : ¬ ((s.history ++ [s.storyboards]).length > 20) := by
    simp only [List.length_append, List.length_singleton]
    omega
  show (if (s.history ++ [s.storyboards]).length > 20
        then (s.history ++ [s.storyboards]).drop 1
        else s.history ++ [s.storyboards]) = s.history ++ [s.storyboards]
  rw [if_neg hc]

/-- At (or past) the cap, `saveHistory` appends and drops the oldest
entry. -/
theorem saveHistory_history_of_ge {s : AppState} (h : s.history.length ≥ 20) :
    (saveHistory s).history = (s.history ++ [s.storyboards]).drop 1 := by
  have hc : (s.history ++ [s.storyboards]).length > 20 := by
    simp only [List.length_append, List.length_singleton]
    omega
  show (if (s.history ++ [s.storyboards]).length > 20
        then (s.history ++ [s.storyboards]).drop 1
        else s.history ++ [s.storyboards]) = (s.history ++ [s.storyboards]).drop 1
  rw [if_pos hc]

/-- The snapshot just taken is always the top of the stack, capped or not. -/
theorem saveHistory_getLast (s : AppState) :
    (saveHistory s).history.getLast? = some s.storyboards := by
  show (if (s.history ++ [s.storyboards]).length > 20
        then (s.history ++ [s.storyboards]).drop 1
        else s.history ++ [s.storyboards]).getLast? = some s.storyboards
  by_cases hc : (s.history ++ [s.storyboards]).length > 20
  · rw [if_pos hc]
    rcases hh : s.history with _ | ⟨x, l'⟩
    · rw [hh] at hc
      simp at hc
    · show (l' ++ [s.storyboards]).getLast? = some s.storyboards
      exact List.getLast?_concat _
  · rw [if_neg hc]
    exact List.getLast?_concat _

/-- `handleUndo` with an empty stack is the identity. -/
theorem handleUndo_of_empty {s : AppState} (h : s.history = []) : handleUndo s = s := by
  unfold handleUndo
  rw [h]
  rfl

/-- Undo right after a history-guarded action always restores the node
collection, even when the action's snapshot evicted the oldest entry. -/
theorem undo_doAction_storyboards (s : AppState)
    (f : List StoryboardGroup → List StoryboardGroup) :
    (handleUndo (doAction f s)).storyboards = s.storyboards := by
  unfold handleUndo
  have hl : (doAction f s).history.getLast? = some s.storyboards := saveHistory_getLast s
  rw [hl]

/-- Below the cap, undo after a history-guarded action restores the whole
state. -/
theorem undo_doAction_full {s : AppState} (f : List StoryboardGroup → List StoryboardGroup)
    (h : s.history.length ≤ 19) :
    handleUndo (doAction f s) = s := by
  have h1 : (doAction f s).history = s.history ++ [s.storyboards] :=
    saveHistory_history_of_le h
  unfold handleUndo
  rw [h1, List.getLast?_concat, List.dropLast_concat]
  rfl

/-- As long as no eviction happens, `n` undos after `n` history-guarded
actions restore the whole state. -/
theorem applyActions_restore (fs : List (List StoryboardGroup → List StoryboardGroup))
    (s : AppState) (h : s.history.length + fs.length ≤ 20) :
    handleUndo^[fs.length] (applyActions fs s) = s := by
  induction fs generalizing s with
  | nil => simp [applyActions]
  | cons f fs ih =>
      have hlen : s.history.length + (fs.length + 1) ≤ 20 := by
        simpa using h
      have hstep : (doAction f s).history = s.history ++ [s.storyboards] :=
        saveHistory_history_of_le (by omega)
      have happ : applyActions (f :: fs) s = applyActions fs (doAction f s) := rfl
      rw [happ, List.length_cons, Function.iterate_succ_apply']
      rw [ih (doAction f s) (by rw [hstep]; simp; omega)]
      exact undo_doAction_full f (by omega)

/-- One eviction: when a run of actions is exactly long enough to push the
stack one past the cap, the oldest entry plays no role in the outcome. -/
theorem applyActions_evict :
    ∀ (fs : List (List StoryboardGroup → List StoryboardGroup)) (s : AppState)
      (c0 : List StoryboardGroup) (t : List (List StoryboardGroup)),
      s.history = c0 :: t → t.length + fs.length = 20 → fs ≠ [] →
      applyActions fs s = applyActions fs { s with history := t }
  | [], _, _, _, _, _, hne => absurd rfl hne
  | [f], s, c0, t, hh, hlen, _ => by
      have h19 : t.length = 19 := by simpa using hlen
      show doAction f s = doAction f { s with history := t }
      have hL : (doAction f s).history = t ++ [s.storyboards] := by
        rw [doAction_history, saveHistory_history_of_ge (by rw [hh]; simp [h19]), hh]
        rfl
      have hR : (doAction f { s with history := t }).history = t ++ [s.storyboards] := by
        rw [doAction_history, saveHistory_history_of_le (by simp [h19])]
      exact AppState.extd rfl (by rw [hL, hR]) rfl rfl rfl
  | f :: f' :: fs', s, c0, t, hh, hlen, _ => by
      have hle : t.length + 1 ≤ 19 := by
        simp only [List.length_cons] at hlen
        omega
      have hstep : (doAction f s).history = (c0 :: t) ++ [s.storyboards] := by
        rw [doAction_history,
          saveHistory_history_of_le (by rw [hh]; simpa using hle), hh]
      have hstep' : doAction f { s with history := t } =
          { doAction f s with history := t ++ [s.storyboards] } := by
        refine AppState.extd rfl ?_ rfl rfl rfl
        rw [doAction_history, saveHistory_history_of_le (by show t.length ≤ 19; omega)]
      have ih := applyActions_evict (f' :: fs') (doAction f s) c0 (t ++ [s.storyboards])
        (by rw [hstep]; rfl)
        (by
          simp only [List.length_cons] at hlen
          simp only [List.length_append, List.length_singleton, List.length_cons,
            List.length_nil]
          omega)
        (by simp)
      show applyActions (f' :: fs') (doAction f s) =
        applyActions (f' :: fs') (doAction f { s with history := t })
      rw [← hstep'] at ih
      exact ih

/-! ### Claim theorems -/

/-- C1: for every graph containing a node `X`, `handleDeleteNode X`
removes `X` and, in the same operation, leaves no remaining node whose
`connections` (outbound) or `inputs` (inbound) list contains `X`'s id. -/
theorem claim1_removeNode_prunes (s : AppState) (x : String)
    (_hmem : ∃ g ∈ s.storyboards, g.id = x) :
    (∀ g ∈ (handleDeleteNode x s).storyboards, g.id ≠ x)
    ∧ (∀ g ∈ (handleDeleteNode x s).storyboards,
        x ∉ g.connections ∧ x ∉ g.inputs.getD []) := by
  constructor
  · intro g hg
    rw [handleDeleteNode_storyboards] at hg
    obtain ⟨g0, hg0, rfl⟩ := List.mem_map.mp hg
    have hq := List.of_mem_filter hg0
    simpa using hq
  · intro g hg
    rw [handleDeleteNode_storyboards] at hg
    obtain ⟨g0, hg0, rfl⟩ := List.mem_map.mp hg
    refine ⟨not_mem_filter_bne _ _, ?_⟩
    show x ∉ ((g0.inputs.getD []).filter (fun i => i != x))
    exact not_mem_filter_bne _ _

/-- Undo right after a node deletion restores the pre-deletion node
collection. -/
theorem undo_after_delete (s : AppState) (x : String) :
    (handleUndo (handleDeleteNode x s)).storyboards = s.storyboards := by
  unfold handleUndo
  have hl : (handleDeleteNode x s).history.getLast? = some s.storyboards :=
    saveHistory_getLast s
  rw [hl]

/-- Undo right after a paste restores the pre-paste node collection. -/
theorem undo_after_paste (s : AppState) (now : Nat) (newId : String)
    (freshItemId : Nat → String) {clip : StoryboardGroup}
    (hclip : s.clipboard = some clip) :
    (handleUndo (handlePaste now newId freshItemId s)).storyboards = s.storyboards := by
  unfold handlePaste
  rw [hclip]
  unfold handleUndo
  have hl : ({ saveHistory s with
      storyboards := (saveHistory s).storyboards
        ++ [pastedNode now newId freshItemId clip],
      selectedNodeId := some newId } : AppState).history.getLast?
      = some s.storyboards := saveHistory_getLast s
  rw [hl]

/-- C4 (part): the history stack after 21 history-guarded actions from an
empty stack.  Shared skeleton for the eviction argument. -/
theorem undo21_after_21_actions (f : List StoryboardGroup → List StoryboardGroup)
    (fs : List (List StoryboardGroup → List StoryboardGroup)) (s0 : AppState)
    (h0 : s0.history = []) (hfs : fs.length = 20) :
    (handleUndo^[21] (applyActions (f :: fs) s0)).storyboards = f s0.storyboards := by
  have h1 : applyActions (f :: fs) s0 = applyActions fs (doAction f s0) := rfl
  have hd : (doAction f s0).history = [s0.storyboards] := by
    rw [doAction_history, saveHistory_history_of_le (by rw [h0]; simp), h0]
    rfl
  have hev := applyActions_evict fs (doAction f s0) s0.storyboards []
    (by rw [hd]) (by simp [hfs]) (by
      intro hnil
      rw [hnil] at hfs
      simp at hfs)
  have hrest : handleUndo^[fs.length]
      (applyActions fs { doAction f s0 with history := [] })
      = { doAction f s0 with history := [] } :=
    applyActions_restore fs _ (by simp [hfs])
  rw [h1, hev, show (21 : Nat) = 1 + fs.length by omega,
    Function.iterate_add_apply, hrest]
  rw [Function.iterate_one, handleUndo_of_empty rfl]
  rfl

/-- C2: `handleConnect` is idempotent on the edge set — for distinct
nodes, calling it twice in a row yields the same node collection (hence
the same `connections`/`inputs` everywhere) as calling it once; and
connecting an already-connected `(source, target)` pair is a no-op on the
whole state. -/
theorem claim2_connect_idempotent (s : AppState) (a b : String) (hne : a ≠ b) :
    ((handleConnect a b (handleConnect a b s)).storyboards
        = (handleConnect a b s).storyboards)
    ∧ (∀ sn, findNode s.storyboards a = some sn → b ∈ sn.connections →
        handleConnect a b s = s) := by
  constructor
  · rcases hfa : findNode s.storyboards a with _ | sn
    · have h1 : (handleConnect a b s).storyboards
          = s.storyboards.map (connectUpdate a b none) := by
        rw [handleConnect_commit hne (by rw [hfa]; rfl), hfa]
      have hfa2 : findNode (handleConnect a b s).storyboards a = none := by
        rw [h1, findNode_map _ _ _ (connectUpdate_id a b none), hfa]
        rfl
      have h2 : (handleConnect a b (handleConnect a b s)).storyboards
          = (handleConnect a b s).storyboards.map (connectUpdate a b none) := by
        rw [handleConnect_commit hne (by rw [hfa2]; rfl), hfa2]
      have hnone : ∀ g ∈ s.storyboards, g.id ≠ a := by
        intro g hg
        have hfa' := hfa
        unfold findNode at hfa'
        have := List.find?_eq_none.mp hfa' g hg
        simpa using this
      rw [h2, h1, List.map_map]
      apply List.map_congr_left
      intro g hg
      exact connectUpdate_none_idem (hnone g hg)
    · by_cases hbc : b ∈ sn.connections
      · have hno := handleConnect_noop_of_connected hfa hbc
        rw [hno, hno]
      · have hguard : ((findNode s.storyboards a).map
            (fun sn => sn.connections.contains b)).getD false = false := by
          rw [hfa]
          simpa using hbc
        have h1 : (handleConnect a b s).storyboards
            = s.storyboards.map (connectUpdate a b (some sn)) := by
          rw [handleConnect_commit hne hguard, hfa]
        have hfa2 : findNode (handleConnect a b s).storyboards a
            = some (connectUpdate a b (some sn) sn) := by
          rw [h1, findNode_map _ _ _ (connectUpdate_id a b (some sn)), hfa]
          rfl
        have hcu : connectUpdate a b (some sn) sn
            = { sn with connections := sn.connections ++ [b] } :=
          connectUpdate_source (findNode_id hfa) hne hbc
        have hb2 : b ∈ (connectUpdate a b (some sn) sn).connections := by
          rw [hcu]
          simp
        have hno := handleConnect_noop_of_connected hfa2 hb2
        rw [hno]
  · intro sn hfa hb
    exact handleConnect_noop_of_connected hfa hb

/-- C3: for distinct nodes `A`, `B` present in the graph with no `A → B`
edge, `handleConnect A B` followed by `handleDisconnect A B` restores
`A`'s and `B`'s `connections` (outbound) and `inputs` (inbound) lists to
their pre-connect values. -/
theorem claim3_connect_disconnect_roundtrip (s : AppState) (a b : String)
    (hne : a ≠ b) (na nb : StoryboardGroup)
    (hfa : findNode s.storyboards a = some na)
    (hfb : findNode s.storyboards b = some nb)
    (hbc : b ∉ na.connections)
    (hin : a ∉ nb.inputs.getD []) :
    (∃ na2, findNode (handleDisconnect a b (handleConnect a b s)).storyboards a
        = some na2 ∧ na2.connections = na.connections ∧ na2.inputs = na.inputs)
    ∧ (∃ nb2, findNode (handleDisconnect a b (handleConnect a b s)).storyboards b
        = some nb2 ∧ nb2.connections = nb.connections
        ∧ nb2.inputs.getD [] = nb.inputs.getD []) := by
  have hguard : ((findNode s.storyboards a).map
      (fun sn => sn.connections.contains b)).getD false = false := by
    rw [hfa]
    simpa using hbc
  have h1 : (handleConnect a b s).storyboards
      = s.storyboards.map (connectUpdate a b (some na)) := by
    rw [handleConnect_commit hne hguard, hfa]
  have hids : ∀ g, (disconnectUpdate a b (connectUpdate a b (some na) g)).id = g.id := by
    intro g
    rw [disconnectUpdate_id, connectUpdate_id]
  have hs2 : (handleDisconnect a b (handleConnect a b s)).storyboards
      = s.storyboards.map (fun g => disconnectUpdate a b (connectUpdate a b (some na) g)) := by
    rw [handleDisconnect_storyboards, h1, List.map_map]
    rfl
  constructor
  · have hna : connectUpdate a b (some na) na
        = { na with connections := na.connections ++ [b] } :=
      connectUpdate_source (findNode_id hfa) hne hbc
    refine ⟨disconnectUpdate a b (connectUpdate a b (some na) na), ?_, ?_, ?_⟩
    · rw [hs2, findNode_map _ _ _ hids, hfa]
      rfl
    · rw [hna, @disconnectUpdate_source a b
        { na with connections := na.connections ++ [b] }
        (show ({ na with connections := na.connections ++ [b] } : StoryboardGroup).id = a
          from @findNode_id s.storyboards a na hfa) hne]
      show (na.connections ++ [b]).filter (fun c => c != b) = na.connections
      exact filter_bne_concat hbc
    · rw [hna, @disconnectUpdate_source a b
        { na with connections := na.connections ++ [b] }
        (show ({ na with connections := na.connections ++ [b] } : StoryboardGroup).id = a
          from @findNode_id s.storyboards a na hfa) hne]
  · have hproj := @connectUpdate_target_proj a b (some na) nb (findNode_id hfb) hin
    have hid2 : (connectUpdate a b (some na) nb).id = b := by
      rw [connectUpdate_id]
      exact findNode_id hfb
    refine ⟨disconnectUpdate a b (connectUpdate a b (some na) nb), ?_, ?_, ?_⟩
    · rw [hs2, findNode_map _ _ _ hids, hfb]
      rfl
    · rw [disconnectUpdate_target hid2]
      exact hproj.2
    · rw [disconnectUpdate_target hid2]
      show ((connectUpdate a b (some na) nb).inputs.getD []).filter (fun i => i != a)
          = nb.inputs.getD []
      rw [hproj.1]
      show (nb.inputs.getD [] ++ [a]).filter (fun i => i != a) = nb.inputs.getD []
      exact filter_bne_concat hin

/-- C4: the history stack takes a snapshot of the full node collection
before each history-guarded mutating operation and is capped at 20
entries with FIFO eviction (oldest dropped first on overflow); undo after
any single history-guarded action restores the exact prior node
collection, this works for up to 20 consecutive actions from an empty
stack, and after 21 actions the pre-first-action collection is
unrecoverable: even 21 undos only reach the state after the first
action. -/
theorem claim4_history_fifo_undo :
    (∀ (s : AppState) (f : List StoryboardGroup → List StoryboardGroup),
        (handleUndo (doAction f s)).storyboards = s.storyboards)
    ∧ (∀ (s : AppState) (x : String),
        (handleUndo (handleDeleteNode x s)).storyboards = s.storyboards)
    ∧ (∀ s : AppState, s.history.length ≤ 20 → (saveHistory s).history.length ≤ 20)
    ∧ (∀ s : AppState, s.history.length = 20 →
        (saveHistory s).history = s.history.drop 1 ++ [s.storyboards])
    ∧ (∀ (fs : List (List StoryboardGroup → List StoryboardGroup)) (s0 : AppState),
        s0.history = [] → fs.length ≤ 20 →
        handleUndo^[fs.length] (applyActions fs s0) = s0)
    ∧ (∀ (f : List StoryboardGroup → List StoryboardGroup)
        (fs : List (List StoryboardGroup → List StoryboardGroup)) (s0 : AppState),
        s0.history = [] → fs.length = 20 →
        (handleUndo^[21] (applyActions (f :: fs) s0)).storyboards
          = f s0.storyboards) := by
  refine ⟨undo_doAction_storyboards, undo_after_delete, ?_, ?_, ?_,
    undo21_after_21_actions⟩
  · intro s h
    by_cases h19 : s.history.length ≤ 19
    · rw [saveHistory_history_of_le h19]
      simp
      omega
    · rw [saveHistory_history_of_ge (by omega)]
      simp only [List.length_drop, List.length_append, List.length_singleton]
      omega
  · intro s h20
    rw [saveHistory_history_of_ge (by omega)]
    rw [List.drop_append_of_le_length (by omega)]
  · intro fs s0 h0 hlen
    exact applyActions_restore fs s0 (by rw [h0]; simpa using hlen)

/-- C10: invoking undo when the history stack is empty is a complete
no-op: the whole state — in particular both the history stack and the
node collection — is unchanged. -/
theorem claim10_undo_empty_noop (s : AppState) (h : s.history = []) :
    handleUndo s = s := by
  unfold handleUndo
  rw [h]
  rfl

/-! ### Copy/paste (C5) -/

/-- `handlePaste` with a non-empty clipboard appends exactly the pasted
node. -/
theorem handlePaste_storyboards {s : AppState} {clip : StoryboardGroup}
    (hclip : s.clipboard = some clip) (now : Nat) (newId : String)
    (freshItemId : Nat → String) :
    (handlePaste now newId freshItemId s).storyboards
      = s.storyboards ++ [pastedNode now newId freshItemId clip] := by
  unfold handlePaste
  rw [hclip]
  rfl

/-- `handlePaste` never touches the clipboard. -/
theorem handlePaste_clipboard {s : AppState} {clip : StoryboardGroup}
    (hclip : s.clipboard = some clip) (now : Nat) (newId : String)
    (freshItemId : Nat → String) :
    (handlePaste now newId freshItemId s).clipboard = s.clipboard := by
  unfold handlePaste
  rw [hclip]
  exact hclip

/-- C5 (counterexample): pasting twice from a clipboard node at `(0,0)`
puts the second pasted node at `(40,40)`, not at the claimed `(+80,+80)`
offset — each paste offsets from the unchanged clipboard position, so the
offsets do not accumulate. -/
theorem claim5_counterexample :
    ((handlePaste 2 "p2" (fun i => "q" ++ toString i)
        (handlePaste 1 "p1" (fun i => "p" ++ toString i)
          pasteDemoState)).storyboards.getLast?.map (fun g => (g.x, g.y)))
      = some ((40 : ℚ), (40 : ℚ))
    ∧ (some ((40 : ℚ), (40 : ℚ)) ≠ some ((80 : ℚ), (80 : ℚ))) := by
  constructor
  · have hclip0 : pasteDemoState.clipboard = some pasteDemoClip := rfl
    have hc1 : (handlePaste 1 "p1" (fun i => "p" ++ toString i)
        pasteDemoState).clipboard = some pasteDemoClip :=
      handlePaste_clipboard hclip0 1 "p1" (fun i => "p" ++ toString i)
    rw [handlePaste_storyboards hc1 2 "p2" (fun i => "q" ++ toString i),
      List.getLast?_concat]
    show some ((pastedNode 2 "p2" (fun i => "q" ++ toString i) pasteDemoClip).x,
        (pastedNode 2 "p2" (fun i => "q" ++ toString i) pasteDemoClip).y)
      = some ((40 : ℚ), (40 : ℚ))
    norm_num [pastedNode, pasteDemoClip]
  · norm_num

/-- C5 (amended): every paste from a non-empty clipboard creates its node
at offset `(+40,+40)` from the clipboard node's stored position, and the
clipboard is unchanged by pasting; hence pasting twice produces two nodes
both at `(+40,+40)` from the original, not `(+40,+40)` then
`(+80,+80)`. -/
theorem claim5_paste_offset_from_clipboard (s : AppState) (clip : StoryboardGroup)
    (hclip : s.clipboard = some clip) (n1 n2 : Nat) (id1 id2 : String)
    (f1 f2 : Nat → String) :
    ((handlePaste n1 id1 f1 s).clipboard = some clip)
    ∧ ((handlePaste n1 id1 f1 s).storyboards.getLast?.map (fun g => (g.x, g.y))
        = some (clip.x + 40, clip.y + 40))
    ∧ ((handlePaste n2 id2 f2 (handlePaste n1 id1 f1 s)).storyboards.getLast?.map
          (fun g => (g.x, g.y))
        = some (clip.x + 40, clip.y + 40)) := by
  have hc1 : (handlePaste n1 id1 f1 s).clipboard = some clip := by
    rw [handlePaste_clipboard hclip, hclip]
  refine ⟨hc1, ?_, ?_⟩
  · rw [handlePaste_storyboards hclip, List.getLast?_concat]
    rfl
  · rw [handlePaste_storyboards hc1, List.getLast?_concat]
    rfl

/-- C6: when `handleConnect` commits an edge whose target is a `timeline`
node and whose source is a `music` node with at least one item, it both
appends the symmetric edge references and seeds the timeline's
`config.timelineAudioUrl` with the URL of the source's first item, in the
same state update. -/
theorem claim6_connect_seeds_timeline_audio (s : AppState) (a b : String)
    (hne : a ≠ b) (src tgt : StoryboardGroup) (item : CanvasItem)
    (rest : List CanvasItem)
    (hfa : findNode s.storyboards a = some src)
    (hfb : findNode s.storyboards b = some tgt)
    (hsrcty : src.type = StoryboardType.music)
    (hitems : src.items = item :: rest)
    (htgtty : tgt.type = StoryboardType.timeline)
    (hbc : b ∉ src.connections) :
    (∃ tgt2, findNode (handleConnect a b s).storyboards b = some tgt2
      ∧ tgt2.inputs = some (tgt.inputs.getD [] ++ [a])
      ∧ tgt2.config = some { tgt.config.getD emptyNodeConfig with
          timelineAudioUrl := some item.url })
    ∧ (∃ src2, findNode (handleConnect a b s).storyboards a = some src2
      ∧ src2.connections = src.connections ++ [b]) := by
  have hguard : ((findNode s.storyboards a).map
      (fun sn => sn.connections.contains b)).getD false = false := by
    rw [hfa]
    simpa using hbc
  have h1 : (handleConnect a b s).storyboards
      = s.storyboards.map (connectUpdate a b (some src)) := by
    rw [handleConnect_commit hne hguard, hfa]
  have hmau : musicAudioUrl (some src) = some item.url := by
    show (if (src.type == StoryboardType.music) = true then
        match src.items with
        | it :: _ => some it.url
        | [] => none
      else none) = some item.url
    rw [if_pos (by simpa using hsrcty), hitems]
  constructor
  · refine ⟨connectUpdate a b (some src) tgt, ?_, ?_, ?_⟩
    · rw [h1, findNode_map _ _ _ (connectUpdate_id a b (some src)), hfb]
      rfl
    · rw [connectUpdate_target_special (findNode_id hfb) htgtty hmau]
    · rw [connectUpdate_target_special (findNode_id hfb) htgtty hmau]
  · refine ⟨connectUpdate a b (some src) src, ?_, ?_⟩
    · rw [h1, findNode_map _ _ _ (connectUpdate_id a b (some src)), hfa]
      rfl
    · rw [connectUpdate_source (findNode_id hfa) hne hbc]

/-- C7: the timeline's total duration is
`max(sum of clip durations, audio track duration, 60)`: it is at least
each of the three and always equal to one of them; in particular three
clips of duration 4 with an audio track no longer than 60 seconds give a
total duration of exactly 60. -/
theorem claim7_totalDuration :
    (∀ (clips : List TimelineClip) (audioDuration : ℚ),
        60 ≤ totalDuration clips audioDuration
        ∧ sumDurations clips ≤ totalDuration clips audioDuration
        ∧ audioDuration ≤ totalDuration clips audioDuration
        ∧ (totalDuration clips audioDuration = sumDurations clips
            ∨ totalDuration clips audioDuration = audioDuration
            ∨ totalDuration clips audioDuration = 60))
    ∧ (∀ (c1 c2 c3 : TimelineClip) (audioDuration : ℚ),
        c1.duration = 4 → c2.duration = 4 → c3.duration = 4 →
        audioDuration ≤ 60 →
        totalDuration [c1, c2, c3] audioDuration = 60) := by
  constructor
  · intro clips a
    refine ⟨le_max_right _ _,
      le_trans (le_max_left _ _) (le_max_left _ _),
      le_trans (le_max_right _ _) (le_max_left _ _), ?_⟩
    unfold totalDuration
    rcases max_choice (max (sumDurations clips) a) 60 with h | h
    · rcases max_choice (sumDurations clips) a with h2 | h2
      · left
        rw [h, h2]
      · right
        left
        rw [h, h2]
    · right
      right
      exact h
  · intro c1 c2 c3 a h1 h2 h3 ha
    have hsum : sumDurations [c1, c2, c3] = 12 := by
      rw [sumDurations_cons, sumDurations_cons, sumDurations_cons, h1, h2, h3]
      show (4 : ℚ) + (4 + (4 + 0)) = 12
      norm_num
    unfold totalDuration
    rw [hsum, max_eq_right (max_le (by norm_num) ha)]

/-! ### Clip resize (C8) -/

/-- Summing a mapped prefix where the map is the identity below the cut. -/
theorem sum_take_map_eq :
    ∀ (l : List TimelineClip) (f : TimelineClip → TimelineClip) (j : Nat),
      (∀ k, (hk : k < l.length) → k < j → f l[k] = l[k]) →
      sumDurations ((l.map f).take j) = sumDurations (l.take j)
  | [], _, _, _ => rfl
  | _ :: _, _, 0, _ => rfl
  | c :: tl, f, j + 1, h => by
      rw [List.map_cons, List.take_succ_cons, List.take_succ_cons,
        sumDurations_cons, sumDurations_cons]
      have h0 : f c = c := by
        have := h 0 (by simp) (by omega)
        simpa using this
      rw [h0, sum_take_map_eq tl f j (fun k hk hkj => by
        have := h (k + 1) (by simpa using hk) (by omega)
        simpa using this)]

/-- Summing a mapped list where the map changes at most the element at
index `i`. -/
theorem sum_map_single :
    ∀ (l : List TimelineClip) (f : TimelineClip → TimelineClip) (i : Nat)
      (hi : i < l.length),
      (∀ k, (hk : k < l.length) → k ≠ i → f l[k] = l[k]) →
      sumDurations (l.map f) = sumDurations l + (f l[i]).duration - l[i].duration
  | [], _, i, hi, _ => absurd hi (by simp)
  | c :: tl, f, 0, _, h => by
      rw [List.map_cons, sumDurations_cons, sumDurations_cons]
      have htl : tl.map f = tl := by
        have heq : tl.map f = tl.map id := List.map_congr_left (fun x hx => by
          obtain ⟨k, hk, rfl⟩ := List.mem_iff_getElem.mp hx
          have := h (k + 1) (by simpa using hk) (by omega)
          simpa using this)
        simpa using heq
      rw [htl]
      show (f c).duration + sumDurations tl
        = c.duration + sumDurations tl + (f c).duration - c.duration
      ring
  | c :: tl, f, i + 1, hi, h => by
      rw [List.map_cons, sumDurations_cons, sumDurations_cons]
      have h0 : f c = c := by
        have := h 0 (by simp) (by omega)
        simpa using this
      have ih := sum_map_single tl f i (by simpa using hi) (fun k hk hki => by
        have := h (k + 1) (by simpa using hk) (by omega)
        simpa using this)
      rw [h0, ih]
      simp only [List.getElem_cons_succ]
      ring

/-- C8: each clip's start offset is the prefix sum of the preceding
durations; resizing clip `i` (identified by its id, with ids unique) sets
only that clip's duration to
`max(0.5, original duration + deltaPixels / pixelsPerSecond)`, leaves
every other clip and every start offset up to and including clip `i`'s
unchanged, and shifts the start offsets of all later clips by exactly the
duration change. -/
theorem claim8_clip_resize (clips : List TimelineClip) (rid : String) (i : Nat)
    (hi : i < clips.length) (hidi : clips[i].id = rid)
    (huniq : ∀ j, (hj : j < clips.length) → clips[j].id = rid → j = i)
    (startDuration deltaPixels pixelsPerSecond : ℚ)
    (hsd : startDuration = clips[i].duration) :
    (resizeClips clips rid startDuration deltaPixels pixelsPerSecond).length
        = clips.length
    ∧ (∀ _hi2 : i < (resizeClips clips rid startDuration deltaPixels
          pixelsPerSecond).length,
        (resizeClips clips rid startDuration deltaPixels pixelsPerSecond)[i]
          = { clips[i] with duration :=
              (max (1/2 : ℚ)
                (clips[i].duration + deltaPixels / pixelsPerSecond)) })
    ∧ (∀ j, (hj : j < clips.length) →
        (_hj2 : j < (resizeClips clips rid startDuration deltaPixels
          pixelsPerSecond).length) →
        j ≠ i →
        (resizeClips clips rid startDuration deltaPixels pixelsPerSecond)[j]
          = clips[j])
    ∧ (∀ j, j ≤ i →
        clipStart (resizeClips clips rid startDuration deltaPixels pixelsPerSecond) j
          = clipStart clips j)
    ∧ (∀ j, i < j →
        clipStart (resizeClips clips rid startDuration deltaPixels pixelsPerSecond) j
          = clipStart clips j
            + max (1/2 : ℚ) (clips[i].duration + deltaPixels / pixelsPerSecond)
            - clips[i].duration) := by
  subst hsd
  have hmap : resizeClips clips rid clips[i].duration deltaPixels pixelsPerSecond
      = clips.map (fun c => if c.id == rid then
          { c with duration :=
            (max (1/2 : ℚ)
              (clips[i].duration + deltaPixels / pixelsPerSecond)) }
          else c) := rfl
  have hoff : ∀ k, (hk : k < clips.length) → k ≠ i →
      (fun c => if c.id == rid then
          { c with duration :=
            (max (1/2 : ℚ)
              (clips[i].duration + deltaPixels / pixelsPerSecond)) }
          else c) clips[k] = clips[k] := by
    intro k hk hki
    have hkid : ¬ (clips[k].id = rid) := fun h => hki (huniq k hk h)
    simp only []
    rw [if_neg (by simpa using hkid)]
  refine ⟨?_, ?_, ?_, ?_, ?_⟩
  · rw [hmap, List.length_map]
  · intro hi2
    simp only [hmap, List.getElem_map]
    rw [if_pos (by simpa using hidi)]
  · intro j hj hj2 hji
    simp only [hmap, List.getElem_map]
    exact hoff j hj hji
  · intro j hji
    rw [hmap]
    unfold clipStart
    exact sum_take_map_eq clips _ j (fun k hk hkj => hoff k hk (by omega))
  · intro j hji
    rw [hmap]
    unfold clipStart
    rw [← List.map_take]
    have hi' : i < (clips.take j).length := by
      simp only [List.length_take]
      omega
    rw [sum_map_single (clips.take j) _ i hi' (fun k hk hki => by
      have hk' : k < clips.length := by
        simp only [List.length_take] at hk
        omega
      have : (clips.take j)[k] = clips[k] := List.getElem_take _
      rw [this]
      exact hoff k hk' hki)]
    have hti : (clips.take j)[i] = clips[i] := List.getElem_take _
    rw [hti, if_pos (by simpa using hidi)]

/-! ### Batch generation lemmas (C9) -/

/-- Stepping the placeholder loop over a scene that has an image and no
finished clip yet. -/
theorem buildPlaceholders_step (fresh : Nat → String) (scene : MVScene)
    (rest : List MVScene) (i : Nat) (clips : List TimelineClip)
    (tasks : List ClipGenTask) {img : String}
    (himg : scene.imageUrl = some img)
    (hskip : clips.any (fun c =>
        c.sceneId == "scene-" ++ toString i && c.status == ClipStatus.done) = false) :
    buildPlaceholders fresh (scene :: rest) i clips tasks
      = buildPlaceholders fresh rest (i + 1)
          (clips ++ [placeholderClip fresh i scene img])
          (tasks ++ [⟨i, scene, fresh i⟩]) := by
  simp only [buildPlaceholders]
  rw [hskip, if_neg (by simp), himg]

/-- A success step of the generation loop. -/
theorem runGeneration_ok {gen : Nat → Except String String} {i : Nat} {url : String}
    (hg : gen i = Except.ok url) (agentId : String) (scene : MVScene)
    (cid : String) (rest : List ClipGenTask) (gs : List StoryboardGroup) :
    runGeneration gen agentId (⟨i, scene, cid⟩ :: rest) gs
      = runGeneration gen agentId rest
          (updateAgentClips agentId (clipDone cid url) gs) := by
  unfold runGeneration
  rw [List.foldl_cons]
  congr 1
  show (match gen i with
      | Except.ok videoUrl => updateAgentClips agentId (clipDone cid videoUrl) gs
      | Except.error e => updateAgentClips agentId (clipError cid e) gs)
    = updateAgentClips agentId (clipDone cid url) gs
  rw [hg]

/-- A failure step of the generation loop: only the failing task's clip is
marked, and the loop continues with the remaining tasks. -/
theorem runGeneration_err {gen : Nat → Except String String} {i : Nat} {msg : String}
    (hg : gen i = Except.error msg) (agentId : String) (scene : MVScene)
    (cid : String) (rest : List ClipGenTask) (gs : List StoryboardGroup) :
    runGeneration gen agentId (⟨i, scene, cid⟩ :: rest) gs
      = runGeneration gen agentId rest
          (updateAgentClips agentId (clipError cid msg) gs) := by
  unfold runGeneration
  rw [List.foldl_cons]
  congr 1
  show (match gen i with
      | Except.ok videoUrl => updateAgentClips agentId (clipDone cid videoUrl) gs
      | Except.error e => updateAgentClips agentId (clipError cid e) gs)
    = updateAgentClips agentId (clipError cid msg) gs
  rw [hg]

/-- The generation loop with no tasks left. -/
theorem runGeneration_nil (gen : Nat → Except String String) (agentId : String)
    (gs : List StoryboardGroup) : runGeneration gen agentId [] gs = gs := rfl

/-- `findNode` commutes with `updateAgentClips`. -/
theorem findNode_updateAgentClips (agentId : String) (f : TimelineClip → TimelineClip)
    (gs : List StoryboardGroup) :
    findNode (updateAgentClips agentId f gs) agentId
      = (findNode gs agentId).map (fun g =>
          if g.id == agentId then
            { g with config := some { g.config.getD emptyNodeConfig with
                timelineClips := (g.config.bind (fun c => c.timelineClips)).map
                  (fun cs => cs.map f) } }
          else g) := by
  unfold updateAgentClips
  exact findNode_map _ _ _ (fun g => by split <;> rfl)

/-- The per-node update of `updateAgentClips` on the agent node itself,
with a known config and clip list. -/
theorem updateAgentClips_node {agentId : String} {f : TimelineClip → TimelineClip}
    {g : StoryboardGroup} (hid : g.id = agentId) {c : NodeConfig}
    (hc : g.config = some c) {cl : List TimelineClip}
    (hcl : c.timelineClips = some cl) :
    (if g.id == agentId then
        { g with config := some { g.config.getD emptyNodeConfig with
            timelineClips := (g.config.bind (fun cc => cc.timelineClips)).map
              (fun cs => cs.map f) } }
      else g)
      = { g with config := some { c with timelineClips := some (cl.map f) } } := by
  rw [if_pos (by simpa using hid), hc]
  show ({ g with config := some { c with
      timelineClips := c.timelineClips.map (fun cs => cs.map f) } } : StoryboardGroup) = _
  rw [hcl]
  rfl

/-- `findNode` through one `updateAgentClips` pass, with the agent node
and its clip list known. -/
theorem findNode_updateAgentClips_known {agentId : String}
    {gs : List StoryboardGroup} {g : StoryboardGroup}
    (hfg : findNode gs agentId = some g) (hid : g.id = agentId) {c : NodeConfig}
    (hc : g.config = some c) {cl : List TimelineClip}
    (hcl : c.timelineClips = some cl) (f : TimelineClip → TimelineClip) :
    findNode (updateAgentClips agentId f gs) agentId
      = some { g with config := some { c with timelineClips := some (cl.map f) } } := by
  rw [findNode_updateAgentClips, hfg]
  simp only [Option.map_some']
  rw [updateAgentClips_node hid hc hcl]

/-- A success update on the clip it names. -/
theorem clipDone_same {clipId videoUrl : String} {c : TimelineClip}
    (h : c.id = clipId) :
    clipDone clipId videoUrl c
      = { c with videoUrl := videoUrl, status := ClipStatus.done } := by
  unfold clipDone
  rw [if_pos (by simpa using h)]

/-- A success update leaves every other clip alone. -/
theorem clipDone_other {clipId videoUrl : String} {c : TimelineClip}
    (h : c.id ≠ clipId) : clipDone clipId videoUrl c = c := by
  unfold clipDone
  rw [if_neg (by simpa using h)]

/-- A failure update on the clip it names carries the failure reason in
the clip's label. -/
theorem clipError_same {clipId message : String} {c : TimelineClip}
    (h : c.id = clipId) (hm : message ≠ "") :
    clipError clipId message c
      = { c with status := ClipStatus.error, prompt := "Error: " ++ message } := by
  unfold clipError
  rw [if_pos (by simpa using h), if_neg (by simpa using hm)]

/-- A failure update leaves every other clip alone. -/
theorem clipError_other {clipId message : String} {c : TimelineClip}
    (h : c.id ≠ clipId) : clipError clipId message c = c := by
  unfold clipError
  rw [if_neg (by simpa using h)]

/-- C9: in a batch generation of three timeline clips where exactly the
second generation call fails, the final clip statuses are
`[done, error, done]`: the failing clip's label carries the failure
reason (`"Error: " ++ msg`), the other two clips get their video URLs and
finish `done`, and the batch runs to completion instead of stopping at
the failure. -/
theorem claim9_batch_error_localized
    (gs : List StoryboardGroup) (agentId : String) (agent : StoryboardGroup)
    (cfg : NodeConfig) (hfind : findNode gs agentId = some agent)
    (hcfg : agent.config = some cfg) (hclips : cfg.timelineClips = some [])
    (s0 s1 s2 : MVScene) (u0 u1 u2 : String)
    (h0 : s0.imageUrl = some u0) (h1 : s1.imageUrl = some u1)
    (h2 : s2.imageUrl = some u2) (fresh : Nat → String)
    (hf01 : fresh 0 ≠ fresh 1) (hf02 : fresh 0 ≠ fresh 2) (hf12 : fresh 1 ≠ fresh 2)
    (gen : Nat → Except String String) (v0 v2 msg : String)
    (hg0 : gen 0 = Except.ok v0) (hg1 : gen 1 = Except.error msg)
    (hg2 : gen 2 = Except.ok v2) (hmsg : msg ≠ "") :
    ∃ agent2,
      findNode (generateTimelineClips fresh gen agentId [s0, s1, s2] gs) agentId
        = some agent2
      ∧ (agent2.config.bind (fun c => c.timelineClips)).map
          (fun cs => cs.map (fun c => c.status))
          = some [ClipStatus.done, ClipStatus.error, ClipStatus.done]
      ∧ (agent2.config.bind (fun c => c.timelineClips)).map
          (fun cs => cs.map (fun c => c.prompt))
          = some [s0.visualDescription, "Error: " ++ msg, s2.visualDescription]
      ∧ (agent2.config.bind (fun c => c.timelineClips)).map
          (fun cs => cs.map (fun c => c.videoUrl))
          = some [v0, "", v2] := by
  have hb1 : buildPlaceholders fresh [s0, s1, s2] 0 [] []
      = buildPlaceholders fresh [s1, s2] 1
          [placeholderClip fresh 0 s0 u0] [⟨0, s0, fresh 0⟩] := by
    rw [buildPlaceholders_step fresh s0 [s1, s2] 0 [] [] h0 (by simp)]
    rfl
  have hb2 : buildPlaceholders fresh [s1, s2] 1
        [placeholderClip fresh 0 s0 u0] [⟨0, s0, fresh 0⟩]
      = buildPlaceholders fresh [s2] 2
          [placeholderClip fresh 0 s0 u0, placeholderClip fresh 1 s1 u1]
          [⟨0, s0, fresh 0⟩, ⟨1, s1, fresh 1⟩] := by
    rw [buildPlaceholders_step fresh s1 [s2] 1
      [placeholderClip fresh 0 s0 u0] [⟨0, s0, fresh 0⟩] h1 (by simp [placeholderClip])]
    rfl
  have hb3 : buildPlaceholders fresh [s2] 2
        [placeholderClip fresh 0 s0 u0, placeholderClip fresh 1 s1 u1]
        [⟨0, s0, fresh 0⟩, ⟨1, s1, fresh 1⟩]
      = ([placeholderClip fresh 0 s0 u0, placeholderClip fresh 1 s1 u1,
          placeholderClip fresh 2 s2 u2],
         [⟨0, s0, fresh 0⟩, ⟨1, s1, fresh 1⟩, ⟨2, s2, fresh 2⟩]) := by
    rw [buildPlaceholders_step fresh s2 [] 2
      [placeholderClip fresh 0 s0 u0, placeholderClip fresh 1 s1 u1]
      [⟨0, s0, fresh 0⟩, ⟨1, s1, fresh 1⟩] h2 (by simp [placeholderClip])]
    rfl
  have hb := hb1.trans (hb2.trans hb3)
  have hcur : (agent.config.bind (fun c => c.timelineClips)).getD [] = [] := by
    rw [hcfg]
    show cfg.timelineClips.getD [] = []
    rw [hclips]
    rfl
  have hmain : generateTimelineClips fresh gen agentId [s0, s1, s2] gs
      = runGeneration gen agentId
          [⟨0, s0, fresh 0⟩, ⟨1, s1, fresh 1⟩, ⟨2, s2, fresh 2⟩]
          (gs.map (fun g => if g.id == agentId then
              { g with config := some { g.config.getD emptyNodeConfig with
                  timelineClips := some [placeholderClip fresh 0 s0 u0,
                    placeholderClip fresh 1 s1 u1, placeholderClip fresh 2 s2 u2] } }
            else g)) := by
    unfold generateTimelineClips
    rw [hfind]
    show runGeneration gen agentId
        (buildPlaceholders fresh [s0, s1, s2] 0
          ((agent.config.bind (fun c => c.timelineClips)).getD []) []).2
        (gs.map (fun g =>
          if g.id == agentId then
            { g with config := some { g.config.getD emptyNodeConfig with
                timelineClips := some (buildPlaceholders fresh [s0, s1, s2] 0
                  ((agent.config.bind (fun c => c.timelineClips)).getD []) []).1 } }
          else g)) = _
    rw [hcur, hb]
  have hfind1 : findNode (gs.map (fun g => if g.id == agentId then
          { g with config := some { g.config.getD emptyNodeConfig with
              timelineClips := some [placeholderClip fresh 0 s0 u0,
                placeholderClip fresh 1 s1 u1, placeholderClip fresh 2 s2 u2] } }
        else g)) agentId
      = some { agent with config := some { cfg with
          timelineClips := some [placeholderClip fresh 0 s0 u0,
            placeholderClip fresh 1 s1 u1, placeholderClip fresh 2 s2 u2] } } := by
    rw [findNode_map _ _ _ (fun g => by split <;> rfl), hfind]
    show some (if agent.id == agentId then
        { agent with config := some { agent.config.getD emptyNodeConfig with
            timelineClips := some [placeholderClip fresh 0 s0 u0,
              placeholderClip fresh 1 s1 u1, placeholderClip fresh 2 s2 u2] } }
      else agent) = _
    rw [if_pos (by simpa using findNode_id hfind), hcfg]
    rfl
  have hm1 : [placeholderClip fresh 0 s0 u0, placeholderClip fresh 1 s1 u1,
        placeholderClip fresh 2 s2 u2].map (clipDone (fresh 0) v0)
      = [{ placeholderClip fresh 0 s0 u0 with
            videoUrl := v0, status := ClipStatus.done },
         placeholderClip fresh 1 s1 u1, placeholderClip fresh 2 s2 u2] := by
    simp only [List.map_cons, List.map_nil]
    rw [clipDone_same (show (placeholderClip fresh 0 s0 u0).id = fresh 0 from rfl),
      clipDone_other (show (placeholderClip fresh 1 s1 u1).id ≠ fresh 0 from Ne.symm hf01),
      clipDone_other (show (placeholderClip fresh 2 s2 u2).id ≠ fresh 0 from Ne.symm hf02)]
  have hm2 : [{ placeholderClip fresh 0 s0 u0 with
          videoUrl := v0, status := ClipStatus.done },
        placeholderClip fresh 1 s1 u1, placeholderClip fresh 2 s2 u2].map
          (clipError (fresh 1) msg)
      = [{ placeholderClip fresh 0 s0 u0 with
            videoUrl := v0, status := ClipStatus.done },
         { placeholderClip fresh 1 s1 u1 with
            status := ClipStatus.error, prompt := "Error: " ++ msg },
         placeholderClip fresh 2 s2 u2] := by
    simp only [List.map_cons, List.map_nil]
    rw [clipError_other (show ({ placeholderClip fresh 0 s0 u0 with
          videoUrl := v0, status := ClipStatus.done } : TimelineClip).id ≠ fresh 1 from hf01),
      clipError_same (show (placeholderClip fresh 1 s1 u1).id = fresh 1 from rfl) hmsg,
      clipError_other (show (placeholderClip fresh 2 s2 u2).id ≠ fresh 1 from Ne.symm hf12)]
  have hm3 : [{ placeholderClip fresh 0 s0 u0 with
          videoUrl := v0, status := ClipStatus.done },
        { placeholderClip fresh 1 s1 u1 with
            status := ClipStatus.error, prompt := "Error: " ++ msg },
        placeholderClip fresh 2 s2 u2].map (clipDone (fresh 2) v2)
      = [{ placeholderClip fresh 0 s0 u0 with
            videoUrl := v0, status := ClipStatus.done },
         { placeholderClip fresh 1 s1 u1 with
            status := ClipStatus.error, prompt := "Error: " ++ msg },
         { placeholderClip fresh 2 s2 u2 with
            videoUrl := v2, status := ClipStatus.done }] := by
    simp only [List.map_cons, List.map_nil]
    rw [clipDone_other (show ({ placeholderClip fresh 0 s0 u0 with
          videoUrl := v0, status := ClipStatus.done } : TimelineClip).id ≠ fresh 2 from hf02),
      clipDone_other (show ({ placeholderClip fresh 1 s1 u1 with
          status := ClipStatus.error, prompt := "Error: " ++ msg } : TimelineClip).id ≠ fresh 2 from hf12),
      clipDone_same (show (placeholderClip fresh 2 s2 u2).id = fresh 2 from rfl)]
  have hA1 := findNode_updateAgentClips_known hfind1 (@findNode_id gs agentId agent hfind)
    rfl rfl (clipDone (fresh 0) v0)
  rw [hm1] at hA1
  have hA2 := findNode_updateAgentClips_known hA1 (@findNode_id gs agentId agent hfind)
    rfl rfl (clipError (fresh 1) msg)
  rw [hm2] at hA2
  have hA3 := findNode_updateAgentClips_known hA2 (@findNode_id gs agentId agent hfind)
    rfl rfl (clipDone (fresh 2) v2)
  rw [hm3] at hA3
  refine ⟨{ agent with config := some { cfg with
      timelineClips := some [{ placeholderClip fresh 0 s0 u0 with
          videoUrl := v0, status := ClipStatus.done },
        { placeholderClip fresh 1 s1 u1 with
            status := ClipStatus.error, prompt := "Error: " ++ msg },
        { placeholderClip fresh 2 s2 u2 with
            videoUrl := v2, status := ClipStatus.done }] } }, ?_, rfl, rfl, rfl⟩
  rw [hmain, runGeneration_ok hg0, runGeneration_err hg1, runGeneration_ok hg2,
    runGeneration_nil]
  exact hA3

/-! ### Witnesses: each claim theorem applied at a concrete input -/

/-- C1 witness: deleting node `"B"` from the concrete two-node graph. -/
theorem claim1_witness :
    (∀ g ∈ (handleDeleteNode "B" demoState).storyboards, g.id ≠ "B")
    ∧ (∀ g ∈ (handleDeleteNode "B" demoState).storyboards,
        "B" ∉ g.connections ∧ "B" ∉ g.inputs.getD []) :=
  claim1_removeNode_prunes demoState "B"
    ⟨demoTimeline, by simp [demoState], rfl⟩

/-- C2 witness: connecting `"A"` to `"B"` in the concrete graph. -/
theorem claim2_witness :
    ((handleConnect "A" "B" (handleConnect "A" "B" demoState)).storyboards
        = (handleConnect "A" "B" demoState).storyboards)
    ∧ (∀ sn, findNode demoState.storyboards "A" = some sn → "B" ∈ sn.connections →
        handleConnect "A" "B" demoState = demoState) :=
  claim2_connect_idempotent demoState "A" "B" (by decide)

/-- C3 witness: connect then disconnect `"A" → "B"` in the concrete
graph. -/
theorem claim3_witness :
    (∃ na2, findNode (handleDisconnect "A" "B"
        (handleConnect "A" "B" demoState)).storyboards "A" = some na2
      ∧ na2.connections = demoMusic.connections ∧ na2.inputs = demoMusic.inputs)
    ∧ (∃ nb2, findNode (handleDisconnect "A" "B"
        (handleConnect "A" "B" demoState)).storyboards "B" = some nb2
      ∧ nb2.connections = demoTimeline.connections
      ∧ nb2.inputs.getD [] = demoTimeline.inputs.getD []) :=
  claim3_connect_disconnect_roundtrip demoState "A" "B" (by decide)
    demoMusic demoTimeline rfl rfl (by simp [demoMusic]) (by simp [demoTimeline])

/-- C4 witness: the history properties at concrete states and action
lists. -/
theorem claim4_witness :
    ((handleUndo (doAction (fun _ => []) demoState)).storyboards
        = demoState.storyboards)
    ∧ ((handleUndo (handleDeleteNode "B" demoState)).storyboards
        = demoState.storyboards)
    ∧ ((saveHistory demoState20).history.length ≤ 20)
    ∧ ((saveHistory demoState20).history
        = demoState20.history.drop 1 ++ [demoState20.storyboards])
    ∧ (handleUndo^[([fun _ => ([] : List StoryboardGroup), fun l => l]
          : List (List StoryboardGroup → List StoryboardGroup)).length]
        (applyActions [fun _ => ([] : List StoryboardGroup), fun l => l] demoEmptyState)
        = demoEmptyState)
    ∧ ((handleUndo^[21] (applyActions ((fun _ => [demoMusic])
          :: List.replicate 20 (fun l => l)) demoEmptyState)).storyboards
        = (fun _ => [demoMusic]) demoEmptyState.storyboards) :=
  ⟨claim4_history_fifo_undo.1 demoState (fun _ => []),
   claim4_history_fifo_undo.2.1 demoState "B",
   claim4_history_fifo_undo.2.2.1 demoState20 (by simp [demoState20]),
   claim4_history_fifo_undo.2.2.2.1 demoState20 (by simp [demoState20]),
   claim4_history_fifo_undo.2.2.2.2.1 _ demoEmptyState rfl (by norm_num),
   claim4_history_fifo_undo.2.2.2.2.2 _ _ demoEmptyState rfl (by simp)⟩

/-- C5 witness (amended claim): pasting twice from the concrete clipboard
state. -/
theorem claim5_witness :
    ((handlePaste 1 "p1" (fun i => "a" ++ toString i) pasteDemoState).clipboard
        = some pasteDemoClip)
    ∧ ((handlePaste 1 "p1" (fun i => "a" ++ toString i)
          pasteDemoState).storyboards.getLast?.map (fun g => (g.x, g.y))
        = some (pasteDemoClip.x + 40, pasteDemoClip.y + 40))
    ∧ ((handlePaste 2 "p2" (fun i => "b" ++ toString i)
          (handlePaste 1 "p1" (fun i => "a" ++ toString i)
            pasteDemoState)).storyboards.getLast?.map (fun g => (g.x, g.y))
        = some (pasteDemoClip.x + 40, pasteDemoClip.y + 40)) :=
  claim5_paste_offset_from_clipboard pasteDemoState pasteDemoClip rfl 1 2 "p1" "p2"
    (fun i => "a" ++ toString i) (fun i => "b" ++ toString i)

/-- C6 witness: connecting the concrete music node to the concrete
timeline node. -/
theorem claim6_witness :
    (∃ tgt2, findNode (handleConnect "A" "B" demoState).storyboards "B" = some tgt2
      ∧ tgt2.inputs = some (demoTimeline.inputs.getD [] ++ ["A"])
      ∧ tgt2.config = some { demoTimeline.config.getD emptyNodeConfig with
          timelineAudioUrl := some demoItem.url })
    ∧ (∃ src2, findNode (handleConnect "A" "B" demoState).storyboards "A" = some src2
      ∧ src2.connections = demoMusic.connections ++ ["B"]) :=
  claim6_connect_seeds_timeline_audio demoState "A" "B" (by decide)
    demoMusic demoTimeline demoItem [] rfl rfl rfl rfl rfl (by simp [demoMusic])

/-- C7 witness: three concrete clips of duration 4 and a 30-second audio
track give a 60-second total. -/
theorem claim7_witness :
    totalDuration [demoClip4, demoClip4, demoClip4] 30 = 60 :=
  claim7_totalDuration.2 demoClip4 demoClip4 demoClip4 30 rfl rfl rfl (by norm_num)

/-- C8 witness: resizing the first of the three concrete clips by
80 pixels at 40 pixels per second. -/
theorem claim8_witness :
    (resizeClips demoClips "k0" 4 80 40).length = demoClips.length
    ∧ (∀ _hi2 : 0 < (resizeClips demoClips "k0" 4 80 40).length,
        (resizeClips demoClips "k0" 4 80 40)[0]
          = { demoClips[0] with duration :=
              (max (1/2 : ℚ) (demoClips[0].duration + 80 / 40)) })
    ∧ (∀ j, (hj : j < demoClips.length) →
        (_hj2 : j < (resizeClips demoClips "k0" 4 80 40).length) →
        j ≠ 0 → (resizeClips demoClips "k0" 4 80 40)[j] = demoClips[j])
    ∧ (∀ j, j ≤ 0 →
        clipStart (resizeClips demoClips "k0" 4 80 40) j = clipStart demoClips j)
    ∧ (∀ j, 0 < j →
        clipStart (resizeClips demoClips "k0" 4 80 40) j
          = clipStart demoClips j
            + max (1/2 : ℚ) (demoClips[0].duration + 80 / 40)
            - demoClips[0].duration) :=
  claim8_clip_resize demoClips "k0" 0 (by simp [demoClips]) rfl
    (by
      intro j hj hid
      simp only [demoClips, List.length_cons, List.length_nil] at hj
      interval_cases j
      · rfl
      · simp [demoClips] at hid
      · simp [demoClips] at hid)
    4 80 40 rfl

/-- C9 witness: three concrete scenes where the second generation call
fails. -/
theorem claim9_witness :
    ∃ agent2,
      findNode (generateTimelineClips demoFresh demoGen "T"
          [demoScene 0, demoScene 1, demoScene 2] [demoAgent]) "T"
        = some agent2
      ∧ (agent2.config.bind (fun c => c.timelineClips)).map
          (fun cs => cs.map (fun c => c.status))
          = some [ClipStatus.done, ClipStatus.error, ClipStatus.done]
      ∧ (agent2.config.bind (fun c => c.timelineClips)).map
          (fun cs => cs.map (fun c => c.prompt))
          = some [(demoScene 0).visualDescription, "Error: " ++ "boom",
              (demoScene 2).visualDescription]
      ∧ (agent2.config.bind (fun c => c.timelineClips)).map
          (fun cs => cs.map (fun c => c.videoUrl))
          = some ["vid", "", "vid"] :=
  claim9_batch_error_localized [demoAgent] "T" demoAgent
    { timelineClips := some [] } rfl rfl rfl
    (demoScene 0) (demoScene 1) (demoScene 2) "img" "img" "img"
    rfl rfl rfl
    demoFresh (by decide) (by decide) (by decide)
    demoGen "vid" "vid" "boom" rfl rfl rfl (by decide)

/-- C10 witness: undo on the concrete empty-history state. -/
theorem claim10_witness : handleUndo demoEmptyState = demoEmptyState :=
  claim10_undo_empty_noop demoEmptyState rfl

end CleverMusic
